import Mathlib

/-!
Verification development for the Airalo end-to-end / API test suite.

The repository consists of a Playwright page object (`src/pages/home_page.js`),
a web test (`tests/.../esim_selection_tests`) using a soft-assertion pattern,
and two API suites (`order_submission_tests.spec.js` and the eSIM-listing
suite).  We give a shallow embedding of the pure logic of these scripts:

* the text-cleanup in each page-object field reader (JavaScript regex
  replaces, `trim`, string-argument `replace`);
* the soft-assertion accumulation and final report in the web scenario;
* the hard-assertion check sequences of the API test cases;
* the suite lifecycle (acquire token in `beforeAll`, dispose in `afterAll`).

Browser/network effects are abstracted: a field reader takes the raw
`textContent()` result as an `Option String` (`none` models JavaScript
`null`); an API case takes the decoded response as input.  A thrown
exception is modelled by `Except.error`.
-/

/-- Character class of the JavaScript regex `\s` (ASCII portion, which is all
the suite ever feeds it): space, tab, line feed, carriage return, vertical
tab, form feed. -/
def isSpaceJS (c : Char) : Bool :=
  c = ' ' || c = '\t' || c = '\n' || c = '\r' || c = '\x0b' || c = '\x0c'

/-- Character class of the JavaScript regex `\d`. -/
def isDigitJS (c : Char) : Bool :=
  '0' ≤ c && c ≤ '9'

/-- Character class of the JavaScript regex `\w`: ASCII letters, digits and
underscore. -/
def isWordJS (c : Char) : Bool :=
  c.isAlpha || isDigitJS c || c = '_'

/-- JavaScript `s.replace(/\s+/g, '')`: every whitespace character is
deleted. -/
def removeAllWs (s : String) : String :=
  String.mk (s.data.filter (fun c => !isSpaceJS c))

/-- JavaScript `String.prototype.trim`: strip whitespace from both ends. -/
def jsTrim (s : String) : String :=
  String.mk (((s.data.dropWhile isSpaceJS).reverse.dropWhile isSpaceJS).reverse)

/-- Split a character list around the first occurrence of `pat`, returning
the parts before and after it, or `none` when `pat` does not occur. -/
def splitFirst (pat : List Char) : List Char → Option (List Char × List Char)
  | [] => if pat.isEmpty then some ([], []) else none
  | c :: cs =>
    if pat.isPrefixOf (c :: cs) then some ([], (c :: cs).drop pat.length)
    else
      match splitFirst pat cs with
      | some (pre, post) => some (c :: pre, post)
      | none => none

/-- JavaScript `s.replace(pat, repl)` with a *string* pattern: only the first
occurrence is replaced. -/
def replaceFirst (s pat repl : String) : String :=
  match splitFirst pat.data s.data with
  | some (pre, post) => String.mk (pre ++ repl.data ++ post)
  | none => s

/-- Backtracking core of the regex `^\s*(\d+)\s*(\w+)\s*$` once the leading
whitespace has been dropped from `s1`: try a digit-group length of `k` digits
first (greedy), shrinking while the remainder fails to match
`\s*(\w+)\s*$`.  Returns the two capture groups on success. -/
def numUnitAux (s1 : List Char) : Nat → Option (List Char × List Char)
  | 0 => none
  | k + 1 =>
    let t := s1.drop (k + 1)
    let t1 := t.dropWhile isSpaceJS
    let w := t1.takeWhile isWordJS
    let rest := t1.dropWhile isWordJS
    if !w.isEmpty && rest.all isSpaceJS then some (s1.take (k + 1), w)
    else numUnitAux s1 k

/-- JavaScript `s.replace(/^\s*(\d+)\s*(\w+)\s*$/, "$1 $2")`: when the whole
string matches, rebuild it as `"<digits> <word>"`; otherwise the string is
returned unchanged. -/
def reformatNumUnit (s : String) : String :=
  let s1 := s.data.dropWhile isSpaceJS
  match numUnitAux s1 (s1.takeWhile isDigitJS).length with
  | some (d, w) => String.mk (d ++ ' ' :: w)
  | none => s

/-!  Field readers of `HomePage`.  Each takes the raw `textContent()` result
(`none` = JavaScript `null`) of the located element. -/

/-- Reader `getPackageTitle`: returns `textContent()` as is — no cleanup, and a
missing text is passed through as `null`. -/
def getPackageTitle (content : Option String) : Option String :=
  content

/-- Reader `getPackageCoverage`: `coverageContent ? coverageContent.replace(/\s+/g, '') : ''`. -/
def getPackageCoverage (content : Option String) : String :=
  match content with
  | none => ""
  | some c => removeAllWs c

/-- Reader `getPackageData`: `dataContent.replace(/^\s*(\d+)\s*(\w+)\s*$/, "$1 $2")`
with *no* null guard — on `null` text content the member access throws a
`TypeError`, modelled as `Except.error`. -/
def getPackageData (content : Option String) : Except String String :=
  match content with
  | none => Except.error ("TypeError")
  | some c => Except.ok (reformatNumUnit c)

/-- Reader `getPackageValidity`: same body as `getPackageData` (and the same missing
null guard). -/
def getPackageValidity (content : Option String) : Except String String :=
  match content with
  | none => Except.error ("TypeError")
  | some c => Except.ok (reformatNumUnit c)

/-- Reader `getPackagePrice`: `priceValue ? priceValue.replace(/\s+/g, '') : ''`
followed by `priceText.replace("USD", "").trim()`. -/
def getPackagePrice (content : Option String) : String :=
  let priceText :=
    match content with
    | none => ""
    | some c => removeAllWs c
  jsTrim (replaceFirst priceText ("USD") (""))

/-!  Web scenario `Search and verify package details for Japan eSIM`:
after the five field reads, each extracted value is compared to its golden
fixture inside its own `try`/`catch`; a mismatch pushes the formatted error
onto `assertionErrors` and execution continues with the next check. -/

/-- Package Detail Record: the five extracted field values. -/
structure PackageFields where
  title : String
  coverage : String
  data : String
  validity : String
  price : String
deriving DecidableEq, Repr

/-- Error entry pushed when the title check fails (note the two spaces after
`Title`, exactly as in the source template literal). -/
def titleError (t : String) : String :=
  "Package Title  Assertion Failed: Actual Field is \"" ++ t ++
    "\" and Expected Field is \"Moshi Moshi\""

/-- Error entry pushed when the coverage check fails. -/
def coverageError (c : String) : String :=
  "Package Coverage Assertion Failed: Actual Field is \"" ++ c ++
    "\" and Expected Field is \"Japan\""

/-- Error entry pushed when the data check fails. -/
def dataError (d : String) : String :=
  "Package Data Assertion Failed: Actual Field is \"" ++ d ++
    "\" and Expected Field is \"1 GB\""

/-- Error entry pushed when the validity check fails. -/
def validityError (v : String) : String :=
  "Package Validity Assertion Failed: Actual Field is \"" ++ v ++
    "\" and Expected Field is \"7 Days\""

/-- Error entry pushed when the price check fails. -/
def priceError (p : String) : String :=
  "Package Price Assertion Failed: Actual Field is \"" ++ p ++
    "\" and Expected Field is \"$4.50\""

/-- The `assertionErrors` array accumulated by the five `try`/`catch` blocks,
in evaluation order title, coverage, data, validity, price; a matching field
contributes nothing, a mismatching one contributes its entry. -/
def assertionErrors (f : PackageFields) : List String :=
  (if f.title = "Moshi Moshi" then [] else [titleError f.title]) ++
  (if f.coverage = "Japan" then [] else [coverageError f.coverage]) ++
  (if f.data = "1 GB" then [] else [dataError f.data]) ++
  (if f.validity = "7 Days" then [] else [validityError f.validity]) ++
  (if f.price = "$4.50" then [] else [priceError f.price])

/-- End of the scenario: `if (assertionErrors.length > 0) throw new
Error(...)`.  `none` is a passing run; `some msg` is the single thrown
failure with message `msg`. -/
def runOutcome (f : PackageFields) : Option String :=
  if (assertionErrors f).isEmpty then none
  else some ("Soft Assertion Failures:\n" ++
    String.intercalate ("\n") (assertionErrors f))

/-!  API suite: order submission (`order_submission_tests.spec.js`). -/

/-- Decoded response body/status used by the happy-path order case. -/
structure OrderResponse where
  status : Nat
  quantity : Int
  package_id : String
  description : String
  simsCount : Nat
deriving DecidableEq, Repr

/-- Form data sent by `Submit a new order and validate response code is 200`. -/
def submitOrderForm : List (String × String) :=
  [("quantity", "6"), ("package_id", "merhaba-7days-1gb"),
   ("type", "sim"), ("description", "6 sim merhaba-7days-1gb")]

/-- The happy-path case's `expect` sequence: each check either passes or
throws immediately (hard assertion), so the case is a fail-fast chain.  The
`Except.error` value names the first failing expectation. -/
def submitOrderCase (r : OrderResponse) : Except String Unit :=
  if r.status ≠ 200 then Except.error ("status") else
  if r.quantity ≠ 6 then Except.error ("quantity") else
  if r.package_id ≠ "merhaba-7days-1gb" then Except.error ("package_id") else
  if r.description ≠ "6 sim merhaba-7days-1gb" then Except.error ("description") else
  if r.simsCount ≠ 6 then Except.error ("sims") else
  Except.ok ()

/-- Decoded error response: HTTP status plus the `data` object of the body as
a field-name/message association list. -/
structure ErrorResponse where
  status : Nat
  messages : List (String × String)
deriving DecidableEq, Repr

/-- Form data sent by the over-limit case (`quantity` 100, invalid package). -/
def overLimitForm : List (String × String) :=
  [("quantity", "100"), ("package_id", "areeba-30days-3gbs"),
   ("type", "sim"), ("description", "6 sim merhaba-7days-1gb")]

/-- The over-limit case's `expect` sequence: status 422, then
`responseBody.data.package_id` and `responseBody.data.quantity` compared to
the two fixed messages.  Reading an absent field yields `undefined`
(`List.lookup` returning `none`), which fails the `toBe` comparison. -/
def overLimitCase (r : ErrorResponse) : Except String Unit :=
  if r.status ≠ 422 then Except.error ("status") else
  if List.lookup ("package_id") r.messages ≠ some ("The selected package is invalid.")
    then Except.error ("package_id") else
  if List.lookup ("quantity") r.messages ≠ some ("The quantity may not be greater than 50.")
    then Except.error ("quantity") else
  Except.ok ()

/-!  API suite: eSIM listing, date-range filter case. -/

/-- The date-filter case after decoding: `createdDates` are the `created_at`
values of the response's data entries (as comparable instants), `now` the
current instant, `randomIndex` the value of
`Math.floor(Math.random() * createdDateArray.length)`.  Indexing outside the
array yields `undefined`, and `new Date(undefined).toISOString()` throws a
`RangeError`; otherwise the `date1 <= date2` comparison is computed but its
result is discarded, because `expect(date1 <= date2)` invokes no matcher, so
the case ends successfully whatever the comparison. -/
def dateFilterCase (createdDates : List Nat) (now : Nat) (randomIndex : Nat) :
    Except String Unit :=
  match createdDates.get? randomIndex with
  | none => Except.error ("RangeError: Invalid time value")
  | some d =>
    let _discardedComparison := decide (d ≤ now)
    Except.ok ()

/-!  Suite lifecycle shared by both API spec files. -/

/-- Decoded body of the token endpoint response (`responseBody.data`). -/
structure TokenResponse where
  access_token : String
deriving DecidableEq, Repr

/-- Suite-level state: the `token` variable of the `describe` block (unset
before `beforeAll`), the `Authorization` header built by each executed case,
and whether the request context has been disposed. -/
structure SuiteState where
  token : Option String
  authHeaders : List String
  disposed : Bool
deriving DecidableEq, Repr

/-- State at the start of the suite: `let token;` is unset, nothing run yet. -/
def initialSuiteState : SuiteState :=
  { token := none, authHeaders := [], disposed := false }

/-- JavaScript string coercion of the `token` variable: an unset variable
prints as `undefined` when concatenated. -/
def jsStringOfToken : Option String → String
  | some t => t
  | none => "undefined"

/-- Hook `beforeAll`: `token = responseBody.data.access_token` — the only
assignment to `token` in either spec file. -/
def beforeAllHook (resp : TokenResponse) (s : SuiteState) : SuiteState :=
  { s with token := some resp.access_token }

/-- One test case: builds `'Bearer ' + token` from the suite's token and
records it; the case's own pass/fail outcome does not touch suite state. -/
def runOneCase (s : SuiteState) (_outcome : Bool) : SuiteState :=
  { s with authHeaders := s.authHeaders ++ ["Bearer " ++ jsStringOfToken s.token] }

/-- Hook `afterAll`: `await request.dispose()`. -/
def afterAllHook (s : SuiteState) : SuiteState :=
  { s with disposed := true }

/-- Modelled from the spec: the Playwright runner's hook contract, which is
not code of this repository — the `beforeAll` hook runs once before all
cases, then every case runs in order regardless of the pass/fail outcomes of
earlier cases, then the `afterAll` hook runs unconditionally.  The hooks and
case bodies folded here are transcribed from the two spec files. -/
def runSuite (resp : TokenResponse) (outcomes : List Bool) : SuiteState :=
  afterAllHook (outcomes.foldl runOneCase (beforeAllHook resp initialSuiteState))

/-- A run in which only the title field mismatches. -/
def titleMismatchRun : PackageFields :=
  ⟨"Moshi", "Japan", "1 GB", "7 Days", "$4.50"⟩

/-- Collapse consecutive whitespace characters into a single space
character (helper of `specCollapseWs`). -/
def squeezeSpaces : List Char → List Char
  | [] => []
  | [c] => [if isSpaceJS c then ' ' else c]
  | c :: d :: rest =>
    if isSpaceJS c && isSpaceJS d then squeezeSpaces (d :: rest)
    else (if isSpaceJS c then ' ' else c) :: squeezeSpaces (d :: rest)

/-- Modelled from the spec: the claimed uniform text-cleanup policy —
"collapse all whitespace runs to single spaces, trim".  This definition
follows the spec's words and exists only to be compared against the field
readers transcribed from the source. -/
def specCollapseWs (s : String) : String :=
  jsTrim (String.mk (squeezeSpaces s.data))

/-- An over-limit response carrying the two asserted messages plus a third,
unasserted message for the `type` field. -/
def overLimitExtra : ErrorResponse :=
  { status := 422
  , messages :=
      [("package_id", "The selected package is invalid."),
       ("quantity", "The quantity may not be greater than 50."),
       ("type", "The selected type is invalid.")] }

/-- C1: the accumulated failure sequence is empty iff the run succeeds
(no failure raised at the end); when it is non-empty the run fails exactly
once, with the failure message carrying the join of *all* accumulated
entries, never only the first. -/
theorem run_fails_iff_errors_nonempty (f : PackageFields) :
    (runOutcome f = none ↔ assertionErrors f = []) ∧
    (assertionErrors f ≠ [] →
      runOutcome f = some ("Soft Assertion Failures:\n" ++
        String.intercalate ("\n") (assertionErrors f))) := by
  unfold runOutcome
  by_cases h : assertionErrors f = []
  · simp [h]
  · simp [h, List.isEmpty_iff]

/-- Witness for `run_fails_iff_errors_nonempty` at a run whose price field
mismatches. -/
theorem run_fails_iff_errors_nonempty_witness :
    assertionErrors ⟨"Moshi Moshi", "Japan", "1 GB", "7 Days", "$4.00"⟩ ≠ [] ∧
    runOutcome ⟨"Moshi Moshi", "Japan", "1 GB", "7 Days", "$4.00"⟩ =
      some ("Soft Assertion Failures:\n" ++ String.intercalate ("\n")
        (assertionErrors ⟨"Moshi Moshi", "Japan", "1 GB", "7 Days", "$4.00"⟩)) :=
  ⟨by decide,
   (run_fails_iff_errors_nonempty
     ⟨"Moshi Moshi", "Japan", "1 GB", "7 Days", "$4.00"⟩).2 (by decide)⟩

/-- C2 counterexample: at a title-only mismatch the failure message is *not*
the entries joined by newline — the code prepends the banner
`Soft Assertion Failures:` and a newline, and the title line carries two
spaces between the field name and `Assertion Failed` rather than the
template's single space. -/
theorem failure_message_not_bare_join :
    runOutcome titleMismatchRun =
      some ("Soft Assertion Failures:\nPackage Title  Assertion Failed: " ++
        "Actual Field is \"Moshi\" and Expected Field is \"Moshi Moshi\"") ∧
    runOutcome titleMismatchRun ≠
      some (String.intercalate ("\n") (assertionErrors titleMismatchRun)) ∧
    runOutcome titleMismatchRun ≠
      some ("Soft Assertion Failures:\nPackage Title Assertion Failed: " ++
        "Actual Field is \"Moshi\" and Expected Field is \"Moshi Moshi\"") := by
  refine ⟨by decide, by decide, by decide⟩

/-- C2 amended: when the accumulated sequence is non-empty, the failure
message is the fixed banner `Soft Assertion Failures:` followed by a newline
and the ordered entries joined by newline, each line prefixed by its field
name per the source's template literals (the title line with two spaces
after the field name). -/
theorem failure_message_is_banner_and_join (f : PackageFields)
    (h : assertionErrors f ≠ []) :
    runOutcome f = some ("Soft Assertion Failures:\n" ++
      String.intercalate ("\n") (assertionErrors f)) := by
  unfold runOutcome
  simp [h, List.isEmpty_iff]

/-- Witness for `failure_message_is_banner_and_join` at a data-field
mismatch. -/
theorem failure_message_is_banner_and_join_witness :
    runOutcome ⟨"Moshi Moshi", "Japan", "2 GB", "7 Days", "$4.50"⟩ =
      some ("Soft Assertion Failures:\n" ++ String.intercalate ("\n")
        (assertionErrors ⟨"Moshi Moshi", "Japan", "2 GB", "7 Days", "$4.50"⟩)) :=
  failure_message_is_banner_and_join
    ⟨"Moshi Moshi", "Japan", "2 GB", "7 Days", "$4.50"⟩ (by decide)

/-- C3: if all five extracted fields equal their golden fixtures the finalize
step produces no failure; if exactly one field mismatches, the accumulated
sequence is exactly the one entry naming that field while the other four
checks still ran (their matching makes them contribute nothing); and when
several fields mismatch the entries appear in evaluation order title,
coverage, data, validity, price. -/
theorem per_field_soft_assertions (f : PackageFields) :
    (f.title = "Moshi Moshi" ∧ f.coverage = "Japan" ∧ f.data = "1 GB" ∧
      f.validity = "7 Days" ∧ f.price = "$4.50" → runOutcome f = none) ∧
    (f.title ≠ "Moshi Moshi" ∧ f.coverage = "Japan" ∧ f.data = "1 GB" ∧
      f.validity = "7 Days" ∧ f.price = "$4.50" →
      assertionErrors f = [titleError f.title]) ∧
    (f.title = "Moshi Moshi" ∧ f.coverage ≠ "Japan" ∧ f.data = "1 GB" ∧
      f.validity = "7 Days" ∧ f.price = "$4.50" →
      assertionErrors f = [coverageError f.coverage]) ∧
    (f.title = "Moshi Moshi" ∧ f.coverage = "Japan" ∧ f.data ≠ "1 GB" ∧
      f.validity = "7 Days" ∧ f.price = "$4.50" →
      assertionErrors f = [dataError f.data]) ∧
    (f.title = "Moshi Moshi" ∧ f.coverage = "Japan" ∧ f.data = "1 GB" ∧
      f.validity ≠ "7 Days" ∧ f.price = "$4.50" →
      assertionErrors f = [validityError f.validity]) ∧
    (f.title = "Moshi Moshi" ∧ f.coverage = "Japan" ∧ f.data = "1 GB" ∧
      f.validity = "7 Days" ∧ f.price ≠ "$4.50" →
      assertionErrors f = [priceError f.price]) ∧
    (f.title ≠ "Moshi Moshi" ∧ f.coverage ≠ "Japan" ∧ f.data ≠ "1 GB" ∧
      f.validity ≠ "7 Days" ∧ f.price ≠ "$4.50" →
      assertionErrors f = [titleError f.title, coverageError f.coverage,
        dataError f.data, validityError f.validity, priceError f.price]) := by
  refine ⟨?_, ?_, ?_, ?_, ?_, ?_, ?_⟩ <;>
    rintro ⟨h1, h2, h3, h4, h5⟩ <;>
    simp [assertionErrors, runOutcome, h1, h2, h3, h4, h5]

/-- Witness for `per_field_soft_assertions` at a coverage-only mismatch. -/
theorem per_field_soft_assertions_witness :
    assertionErrors ⟨"Moshi Moshi", "Nippon", "1 GB", "7 Days", "$4.50"⟩ =
      [coverageError ("Nippon")] :=
  (per_field_soft_assertions
      ⟨"Moshi Moshi", "Nippon", "1 GB", "7 Days", "$4.50"⟩).2.2.1
    ⟨by decide, by decide, by decide, by decide, by decide⟩

/-- C4: on a missing (`null`) text content, `getPackageCoverage` and
`getPackagePrice` yield the empty string and `getPackageTitle` passes the
`null` through, but `getPackageData` and `getPackageValidity` dereference the
`null` and throw a `TypeError` — contradicting the spec's requirement that a
missing element yields an empty string and a recorded mismatch rather than a
crash. -/
theorem data_validity_readers_throw_on_null :
    getPackageData none = Except.error ("TypeError") ∧
    getPackageValidity none = Except.error ("TypeError") ∧
    getPackageCoverage none = "" ∧
    getPackagePrice none = "" ∧
    getPackageTitle none = none :=
  ⟨rfl, rfl, rfl, rfl, rfl⟩

/-- C6: the happy-path order case sends quantity 6 and package id
`merhaba-7days-1gb`, and passes precisely when the response has status 200,
quantity 6, the echoed package id and description, and six sims; the first
failing expectation aborts the case immediately (hard assertion). -/
theorem submit_order_happy_path (r : OrderResponse) :
    (List.lookup ("quantity") submitOrderForm = some ("6") ∧
     List.lookup ("package_id") submitOrderForm = some ("merhaba-7days-1gb")) ∧
    (submitOrderCase r = Except.ok () ↔
      r.status = 200 ∧ r.quantity = 6 ∧ r.package_id = "merhaba-7days-1gb" ∧
      r.description = "6 sim merhaba-7days-1gb" ∧ r.simsCount = 6) ∧
    (r.status ≠ 200 → submitOrderCase r = Except.error ("status")) ∧
    (r.status = 200 ∧ r.quantity ≠ 6 →
      submitOrderCase r = Except.error ("quantity")) := by
  refine ⟨⟨by decide, by decide⟩, ?_, ?_, ?_⟩
  · unfold submitOrderCase
    split_ifs with h1 h2 h3 h4 h5 <;> simp_all
  · intro h
    unfold submitOrderCase
    simp [h]
  · rintro ⟨h1, h2⟩
    unfold submitOrderCase
    simp [h1, h2]

/-- Witness for `submit_order_happy_path` at a fully conforming response. -/
theorem submit_order_happy_path_witness :
    submitOrderCase
      ⟨200, 6, "merhaba-7days-1gb", "6 sim merhaba-7days-1gb", 6⟩ =
      Except.ok () :=
  ((submit_order_happy_path
      ⟨200, 6, "merhaba-7days-1gb", "6 sim merhaba-7days-1gb", 6⟩).2.1).mpr
    ⟨rfl, rfl, rfl, rfl, rfl⟩

/-- C7 counterexample: a 422 response carrying the two expected messages
*plus* an extra `type` message passes the over-limit case, although its
message set does not equal the two-element set claimed — the case asserts
the two field messages but never that they are the only ones. -/
theorem over_limit_extra_message_passes :
    overLimitCase overLimitExtra = Except.ok () ∧
    List.lookup ("type") overLimitExtra.messages =
      some ("The selected type is invalid.") ∧
    ¬ (∀ p ∈ overLimitExtra.messages,
        p.1 = "package_id" ∨ p.1 = "quantity") := by
  refine ⟨rfl, by decide, by decide⟩

/-- C7 amended: the over-limit case sends quantity 100 and package id
`areeba-30days-3gbs`, and passes precisely when the response status is 422,
the `package_id` message is `The selected package is invalid.` and the
`quantity` message is `The quantity may not be greater than 50.`; messages
for other fields are not constrained, and the first failing expectation
aborts the case. -/
theorem over_limit_case_checks (r : ErrorResponse) :
    (List.lookup ("quantity") overLimitForm = some ("100") ∧
     List.lookup ("package_id") overLimitForm = some ("areeba-30days-3gbs")) ∧
    (overLimitCase r = Except.ok () ↔
      r.status = 422 ∧
      List.lookup ("package_id") r.messages =
        some ("The selected package is invalid.") ∧
      List.lookup ("quantity") r.messages =
        some ("The quantity may not be greater than 50.")) ∧
    (r.status ≠ 422 → overLimitCase r = Except.error ("status")) := by
  refine ⟨⟨by decide, by decide⟩, ?_, ?_⟩
  · unfold overLimitCase
    split_ifs with h1 h2 h3 <;> simp_all
  · intro h
    unfold overLimitCase
    simp [h]

/-- Witness for `over_limit_case_checks` at a response with exactly the two
asserted messages. -/
theorem over_limit_case_checks_witness :
    overLimitCase
      ⟨422, [("package_id", "The selected package is invalid."),
             ("quantity", "The quantity may not be greater than 50.")]⟩ =
      Except.ok () :=
  ((over_limit_case_checks
      ⟨422, [("package_id", "The selected package is invalid."),
             ("quantity", "The quantity may not be greater than 50.")]⟩).2.1).mpr
    ⟨rfl, by decide, by decide⟩

/-- C8: the date-filter case computes `date1 <= date2` but passes the result
to `expect` without invoking any matcher, so a response entry created *after*
`now` still lets the case succeed — the code never fails on a violation of
`created_at <= now`, contradicting the validation the spec intends. -/
theorem date_filter_violation_not_failed :
    dateFilterCase [100] 50 0 = Except.ok () ∧ ¬ (100 ≤ 50) :=
  ⟨rfl, by decide⟩

/-- C10: on a response with an empty data collection, the random index
selects `undefined` from the empty `created_at` array and
`new Date(undefined).toISOString()` throws a `RangeError`, so the case
crashes rather than passing vacuously — for every `now` and every computed
index. -/
theorem date_filter_empty_data_crashes (now idx : Nat) :
    dateFilterCase [] now idx =
      Except.error ("RangeError: Invalid time value") := by
  cases idx <;> rfl

/-- Folding the suite's cases preserves the token and only ever appends the
authorization header built from it. -/
theorem foldl_runOneCase_invariant (t : String) (outcomes : List Bool)
    (s : SuiteState) (ht : s.token = some t)
    (hh : ∀ h ∈ s.authHeaders, h = "Bearer " ++ t) :
    (outcomes.foldl runOneCase s).token = some t ∧
    ∀ h ∈ (outcomes.foldl runOneCase s).authHeaders, h = "Bearer " ++ t := by
  induction outcomes generalizing s with
  | nil => exact ⟨ht, hh⟩
  | cons b bs ih =>
    refine ih (runOneCase s b) ht ?_
    intro h hmem
    simp only [runOneCase, List.mem_append, List.mem_singleton] at hmem
    rcases hmem with hmem | rfl
    · exact hh h hmem
    · simp [jsStringOfToken, ht]

/-- C9: in an API suite, the only token assignment is the one in `beforeAll`,
every executed case builds its authorization header from that same token, and
the request context is disposed at the end regardless of the pass/fail
outcomes of the cases. -/
theorem suite_token_constant_and_disposed (resp : TokenResponse)
    (outcomes : List Bool) :
    (runSuite resp outcomes).token = some resp.access_token ∧
    (runSuite resp outcomes).disposed = true ∧
    ∀ h ∈ (runSuite resp outcomes).authHeaders,
      h = "Bearer " ++ resp.access_token := by
  have hinv := foldl_runOneCase_invariant resp.access_token outcomes
    (beforeAllHook resp initialSuiteState) rfl
    (by intro h hmem; simp [beforeAllHook, initialSuiteState] at hmem)
  refine ⟨?_, rfl, ?_⟩
  · simpa [runSuite, afterAllHook] using hinv.1
  · intro x hx
    exact hinv.2 x (by simpa [runSuite, afterAllHook] using hx)

/-- Witness for `suite_token_constant_and_disposed` on a two-case suite whose
first case passes and whose second fails. -/
theorem suite_token_constant_and_disposed_witness :
    (runSuite ⟨"tok"⟩ [true, false]).token = some ("tok") ∧
    (runSuite ⟨"tok"⟩ [true, false]).disposed = true ∧
    ("Bearer tok" : String) = "Bearer " ++ "tok" :=
  ⟨(suite_token_constant_and_disposed ⟨"tok"⟩ [true, false]).1,
   (suite_token_constant_and_disposed ⟨"tok"⟩ [true, false]).2.1,
   (suite_token_constant_and_disposed ⟨"tok"⟩ [true, false]).2.2
     "Bearer tok" (by decide)⟩

/-- Membership in a `dropWhile` result implies membership in the original
list. -/
theorem mem_of_mem_dropWhile {α : Type} {p : α → Bool} {l : List α} {c : α}
    (h : c ∈ l.dropWhile p) : c ∈ l :=
  (List.dropWhile_suffix p).subset h

/-- Characters of the two parts returned by `splitFirst` all come from the
input list. -/
theorem splitFirst_mem {pat : List Char} :
    ∀ {l pre post : List Char}, splitFirst pat l = some (pre, post) →
    ∀ c, c ∈ pre ++ post → c ∈ l := by
  intro l
  induction l with
  | nil =>
    intro pre post h c hc
    unfold splitFirst at h
    split at h
    · cases h
      simp at hc
    · cases h
  | cons a as ih =>
    intro pre post h c hc
    unfold splitFirst at h
    split at h
    · cases h
      simp only [List.nil_append] at hc
      exact List.mem_of_mem_drop hc
    · cases hsp : splitFirst pat as with
      | none => rw [hsp] at h; cases h
      | some pq =>
        rw [hsp] at h
        obtain ⟨p, q⟩ := pq
        cases h
        simp only [List.cons_append, List.mem_cons] at hc
        rcases hc with rfl | hc
        · exact List.mem_cons_self _ _
        · exact List.mem_cons_of_mem _ (ih hsp c hc)

/-- Characters surviving `jsTrim` come from the input string. -/
theorem mem_of_mem_jsTrim {s : String} {c : Char} (h : c ∈ (jsTrim s).data) :
    c ∈ s.data := by
  unfold jsTrim at h
  simp only [List.mem_reverse] at h
  exact mem_of_mem_dropWhile (List.mem_reverse.mp (mem_of_mem_dropWhile h))

/-- Characters surviving `replaceFirst` with an empty replacement come from
the input string. -/
theorem mem_of_mem_replaceFirst_empty {s pat : String} {c : Char}
    (h : c ∈ (replaceFirst s pat ("")).data) : c ∈ s.data := by
  unfold replaceFirst at h
  cases hsp : splitFirst pat.data s.data with
  | none => rw [hsp] at h; exact h
  | some pq =>
    obtain ⟨pre, post⟩ := pq
    rw [hsp] at h
    simp only [List.append_nil] at h
    exact splitFirst_mem hsp c h

/-- The `takeWhile` of a predicate nowhere true on the list is empty. -/
theorem takeWhile_eq_nil_of_all_false {p : Char → Bool} {l : List Char}
    (h : ∀ c ∈ l, p c = false) : l.takeWhile p = [] := by
  cases l with
  | nil => rfl
  | cons a as =>
    have := h a (List.mem_cons_self _ _)
    simp [List.takeWhile_cons, this]

/-- When the text contains no digit, the `$1 $2` regex cannot match and
`reformatNumUnit` returns the text unchanged. -/
theorem reformatNumUnit_of_no_digit {s : String}
    (h : ∀ c ∈ s.data, isDigitJS c = false) : reformatNumUnit s = s := by
  have hds : (s.data.dropWhile isSpaceJS).takeWhile isDigitJS = [] :=
    takeWhile_eq_nil_of_all_false fun c hc => h c (mem_of_mem_dropWhile hc)
  simp [reformatNumUnit, hds, numUnitAux]

/-- C5 counterexample: the coverage reader deletes the interior whitespace of
`a b` outright instead of collapsing it to a single space as the claimed
policy would, and the title reader applies no cleanup at all. -/
theorem cleanup_not_uniform_collapse :
    getPackageCoverage (some ("a b")) = "ab" ∧
    specCollapseWs ("a b") = "a b" ∧
    ("ab" : String) ≠ "a b" ∧
    getPackageTitle (some (" x  y ")) = some (" x  y ") ∧
    specCollapseWs (" x  y ") = "x y" := by
  refine ⟨by decide, by decide, by decide, rfl, by decide⟩

/-- C5 amended: the cleanup is not uniform — the title reader performs no
cleanup; the coverage and price readers delete every whitespace character
(so their results contain no whitespace at all); the data and validity
readers reformat to `"<number> <unit>"` exactly when the whole text matches
optional-whitespace digits whitespace word-characters optional-whitespace,
and otherwise return the text unchanged (in particular unchanged whenever it
contains no digit). -/
theorem field_reader_cleanup (s : String) :
    getPackageTitle (some s) = some s ∧
    (∀ c ∈ (getPackageCoverage (some s)).data, isSpaceJS c = false) ∧
    (∀ c ∈ (getPackagePrice (some s)).data, isSpaceJS c = false) ∧
    ((∀ c ∈ s.data, isDigitJS c = false) →
      getPackageData (some s) = Except.ok s) ∧
    ((∀ c ∈ s.data, isDigitJS c = false) →
      getPackageValidity (some s) = Except.ok s) ∧
    getPackageData (some ("  1    GB ")) = Except.ok ("1 GB") ∧
    getPackageValidity (some (" 7   Days  ")) = Except.ok ("7 Days") := by
  refine ⟨rfl, ?_, ?_, ?_, ?_, rfl, rfl⟩
  · intro c hc
    have := (List.mem_filter.mp hc).2
    simpa using this
  · intro c hc
    have hmem : c ∈ (removeAllWs s).data :=
      mem_of_mem_replaceFirst_empty (mem_of_mem_jsTrim hc)
    have := (List.mem_filter.mp hmem).2
    simpa using this
  · intro h
    show Except.ok (reformatNumUnit s) = Except.ok s
    rw [reformatNumUnit_of_no_digit h]
  · intro h
    show Except.ok (reformatNumUnit s) = Except.ok s
    rw [reformatNumUnit_of_no_digit h]

/-- Witness for `field_reader_cleanup` at the digit-free text `x y`. -/
theorem field_reader_cleanup_witness :
    getPackageTitle (some ("x y")) = some ("x y") ∧
    getPackageData (some ("x y")) = Except.ok ("x y") ∧
    isSpaceJS 'x' = false :=
  ⟨(field_reader_cleanup ("x y")).1,
   (field_reader_cleanup ("x y")).2.2.2.1 (by decide),
   (field_reader_cleanup ("x y")).2.1 'x' (by decide)⟩

